import Mathlib

/-!
Verification development for the rule-based code-review engine in
src/backend/src/core/code_reviewer.py.

The engine is embedded shallowly: each Python regular expression becomes a
term of a small regex type with a backtracking-priority matcher, the pattern
tables become lists of rules, and the orchestrating review_code loop becomes
a fold over the input file list. Machine-relevant regex semantics (leftmost
match, greedy quantifiers, left-biased alternation, non-overlapping finditer
scanning, 1-based line numbers from newline counts) are modelled explicitly.
-/

set_option maxRecDepth 4000

/-- Severity levels used by the rule tables of code_reviewer.py. Every rule in
the source carries exactly one of the four strings critical, high, medium,
low, so the severity dictionary keys are modelled as an enumeration. -/
inductive Severity where
  | critical
  | high
  | medium
  | low
deriving DecidableEq

/-- The metadata attached to a detection pattern in the source tables:
severity, issue text, recommendation, optional example and reference. -/
structure RuleInfo where
  severity : Severity
  issue : String
  recommendation : String
  example_ : Option String
  reference : Option String
deriving DecidableEq

/-- An issue dictionary as appended by the analyzer loops of the source. -/
structure Issue where
  file : String
  line : Nat
  severity : Severity
  issue : String
  recommendation : String
  example_ : Option String
  reference : Option String
deriving DecidableEq

/-- Captured groups of one regex match: pairs of group index and the matched
slice, mirroring match.groups() of Python re. -/
abbrev Caps := List (Nat × List Char)

/-- Character-level regular expressions covering exactly the constructs used
by the patterns of code_reviewer.py: character classes, sequencing, biased
alternation, greedy star and counted repetition over a character class,
greedy option, capture groups, negative lookahead, and word boundaries. -/
inductive Rx where
  | eps : Rx
  | cls : (Char → Bool) → Rx
  | seq : Rx → Rx → Rx
  | alt : Rx → Rx → Rx
  | starC : (Char → Bool) → Rx
  | repC : Nat → (Char → Bool) → Rx
  | opt : Rx → Rx
  | grp : Nat → Rx → Rx
  | nla : Rx → Rx
  | wb : Rx

/-- Word characters for the re metacharacter backslash-w on ASCII input. -/
def wordChar (c : Char) : Bool := c.isAlphanum || c == '_'

/-- Whitespace characters for the re metacharacter backslash-s. -/
def spaceChar (c : Char) : Bool :=
  c == ' ' || c == '\t' || c == '\n' || c == '\r' || c == '\x0b' || c == '\x0c'

/-- Digit characters for the re metacharacter backslash-d. -/
def digitChar (c : Char) : Bool := c.isDigit

/-- Any character except newline: the re dot. -/
def dotChar (c : Char) : Bool := c != '\n'

/-- Length of the maximal run of characters satisfying p starting at i. -/
def runLen (p : Char → Bool) (s : List Char) (i : Nat) : Nat :=
  ((s.drop i).takeWhile p).length

/-- End positions reachable by a greedy star over character class p from
position i, longest consumption first (backtracking priority order). -/
def starEnds (p : Char → Bool) (s : List Char) (i : Nat) : List Nat :=
  let k := runLen p s i
  (List.range (k + 1)).map (fun t => i + k - t)

/-- End positions for a counted repetition of at least n characters of class
p from position i, longest first; empty when fewer than n match. -/
def repEnds (n : Nat) (p : Char → Bool) (s : List Char) (i : Nat) : List Nat :=
  let k := runLen p s i
  if k < n then [] else (List.range (k - n + 1)).map (fun t => i + k - t)

/-- The re word-boundary test at position i of s: exactly one of the
neighbouring characters (previous, current) is a word character, with the
string edges counting as non-word. -/
def wordBoundary (s : List Char) (i : Nat) : Bool :=
  let prevW := match i with
    | 0 => false
    | j + 1 => ((s.get? j).map wordChar).getD false
  let curW := ((s.get? i).map wordChar).getD false
  prevW != curW

/-- Backtracking matcher: all ways the expression can match starting at
position i in s, in backtracking priority order (left-biased alternation,
greedy quantifiers). Each result is the end position plus captured groups,
so the head of the list is the match Python re would commit to. -/
def Rx.run (s : List Char) : Rx → Nat → List (Nat × Caps)
  | .eps, i => [(i, [])]
  | .cls p, i =>
    match s.get? i with
    | some c => if p c then [(i + 1, [])] else []
    | none => []
  | .seq a b, i =>
    (Rx.run s a i).flatMap (fun r => (Rx.run s b r.1).map (fun q => (q.1, r.2 ++ q.2)))
  | .alt a b, i => Rx.run s a i ++ Rx.run s b i
  | .starC p, i => (starEnds p s i).map (fun j => (j, []))
  | .repC n p, i => (repEnds n p s i).map (fun j => (j, []))
  | .opt a, i => Rx.run s a i ++ [(i, [])]
  | .grp g a, i =>
    (Rx.run s a i).map (fun r => (r.1, (g, (s.drop i).take (r.1 - i)) :: r.2))
  | .nla a, i => if (Rx.run s a i).isEmpty then [(i, [])] else []
  | .wb, i => if wordBoundary s i then [(i, [])] else []

/-- One step list of matches of re.finditer: starting from position i with
the given fuel, emit the leftmost match (priority head) at each position and
resume after its end, advancing by one on an empty match. -/
def scanFrom (rx : Rx) (s : List Char) : Nat → Nat → List (Nat × Nat × Caps)
  | 0, _ => []
  | fuel + 1, i =>
    if i > s.length then []
    else
      match (rx.run s i).head? with
      | some (j, caps) =>
        (i, j, caps) :: scanFrom rx s fuel (if i < j then j else i + 1)
      | none => scanFrom rx s fuel (i + 1)

/-- All non-overlapping matches of rx in s in left-to-right order, as
produced by re.finditer: (start, end, captured groups) triples. -/
def findIter (rx : Rx) (s : List Char) : List (Nat × Nat × Caps) :=
  scanFrom rx s (s.length + 1) 0

/-- A pattern table entry of the source: one regex with its issue info. -/
structure PatRule where
  pattern : Rx
  info : RuleInfo

/-- The issue record the analyzer loops append for a match at byte offset
start: line is the count of newline characters before the offset plus one. -/
def mkIssue (filename : String) (content : List Char) (r : PatRule) (start : Nat) : Issue :=
  { file := filename
    line := (content.take start).count '\n' + 1
    severity := r.info.severity
    issue := r.info.issue
    recommendation := r.info.recommendation
    example_ := r.info.example_
    reference := r.info.reference }

/-- All issues one pattern contributes for one file: one per finditer match. -/
def patternIssues (filename : String) (content : List Char) (r : PatRule) : List Issue :=
  (findIter r.pattern content).map (fun m => mkIssue filename content r m.1)

/-- Literal character expression. -/
def chrRx (c : Char) : Rx := .cls (fun x => x == c)

/-- Case-insensitive literal character, for patterns under the re (?i) flag. -/
def ichrRx (c : Char) : Rx := .cls (fun x => x.toLower == c.toLower)

/-- Literal string expression. -/
def rxStr (w : String) : Rx := w.toList.foldr (fun c r => .seq (chrRx c) r) .eps

/-- Case-insensitive literal string expression. -/
def rxIStr (w : String) : Rx := w.toList.foldr (fun c r => .seq (ichrRx c) r) .eps

/-- Sequence of expressions. -/
def rxSeqs : List Rx → Rx
  | [] => .eps
  | [r] => r
  | r :: rs => .seq r (rxSeqs rs)

/-- Left-biased alternation of expressions, in source order. -/
def rxAlts : List Rx → Rx
  | [] => .eps
  | [r] => r
  | r :: rs => .alt r (rxAlts rs)

/-- Greedy plus over a character class. -/
def plusC (p : Char → Bool) : Rx := .seq (.cls p) (.starC p)

/-- The re expression dot-star: any run of non-newline characters. -/
def dotStar : Rx := .starC dotChar

/-- Quote class from the hardcoded-secret pattern: a single or double quote. -/
def quoteChar (c : Char) : Bool := c == '\x27' || c == '\x22'

/-- SQL injection pattern of _analyze_security:
(?i)(execute|exec|run).*\b(sql|query)\b.*(\+|\|\||concat|template) -/
def sqlInjectionRule : PatRule :=
  { pattern := rxSeqs [rxAlts [rxIStr "execute", rxIStr "exec", rxIStr "run"], dotStar, .wb,
      rxAlts [rxIStr "sql", rxIStr "query"], .wb, dotStar,
      rxAlts [chrRx '+', rxStr "||", rxIStr "concat", rxIStr "template"]]
    info :=
      { severity := .critical
        issue := "Potential SQL injection vulnerability"
        recommendation := "Use parameterized queries or prepared statements"
        example_ := some "db.execute(\x27SELECT * FROM users WHERE id = ?\x27, [userId])"
        reference := some "https://owasp.org/www-community/attacks/SQL_Injection" } }

/-- XSS pattern of _analyze_security: (?i)innerHTML|outerHTML|document\.write -/
def xssRule : PatRule :=
  { pattern := rxAlts [rxIStr "innerHTML", rxIStr "outerHTML",
      rxSeqs [rxIStr "document", chrRx '.', rxIStr "write"]]
    info :=
      { severity := .high
        issue := "Potential XSS vulnerability with direct DOM manipulation"
        recommendation := "Use safer alternatives like textContent or createElement and sanitize user input"
        example_ := some "element.textContent = userProvidedString;"
        reference := some "https://owasp.org/www-community/attacks/xss/" } }

/-- Hardcoded secret pattern of _analyze_security:
(?i)(password|secret|token|key|credential|auth)[_\s]*=\s*['\"]((?!\$\x7b)[^'\"]+)['\"]\s*;? -/
def hardcodedSecretRule : PatRule :=
  { pattern := rxSeqs [
      rxAlts [rxIStr "password", rxIStr "secret", rxIStr "token", rxIStr "key",
        rxIStr "credential", rxIStr "auth"],
      .starC (fun c => c == '_' || spaceChar c),
      chrRx '=',
      .starC spaceChar,
      .cls quoteChar,
      .nla (rxStr "$\x7b"),
      plusC (fun c => !quoteChar c),
      .cls quoteChar,
      .starC spaceChar,
      .opt (chrRx ';')]
    info :=
      { severity := .critical
        issue := "Hardcoded secret or credential in source code"
        recommendation := "Move sensitive values to environment variables or a secure configuration store"
        example_ := some "const apiKey = process.env.API_KEY;"
        reference := some "https://owasp.org/www-community/vulnerabilities/Use_of_hard-coded_password" } }

/-- Always-on security pattern table of _analyze_security, in source order. -/
def security_patterns_base : List PatRule :=
  [sqlInjectionRule, xssRule, hardcodedSecretRule]

/-- Path traversal pattern (strictness tier 1):
(?i)\.\.\/|\.\.\\|\bpath\.join\(.*\.\.|fs\.read.*\.\.|open\(.*\.\. -/
def pathTraversalRule : PatRule :=
  { pattern := rxAlts [
      rxStr "../",
      rxStr "..\\",
      rxSeqs [.wb, rxIStr "path", chrRx '.', rxIStr "join", chrRx '(', dotStar, rxStr ".."],
      rxSeqs [rxIStr "fs", chrRx '.', rxIStr "read", dotStar, rxStr ".."],
      rxSeqs [rxIStr "open", chrRx '(', dotStar, rxStr ".."]]
    info :=
      { severity := .high
        issue := "Potential path traversal vulnerability"
        recommendation := "Validate and sanitize file paths, use path normalization"
        example_ := some "const safePath = path.normalize(userInput).replace(/^(\\.\\.[\\/\\])+/, \x27\x27);"
        reference := some "https://owasp.org/www-community/attacks/Path_Traversal" } }

/-- Insecure randomness pattern (strictness tier 1):
(?i)\bMath\.random\(\)|\brand\(|\brandom\.\b(?!secure) -/
def insecureRandomRule : PatRule :=
  { pattern := rxAlts [
      rxSeqs [.wb, rxIStr "Math", chrRx '.', rxIStr "random", chrRx '(', chrRx ')'],
      rxSeqs [.wb, rxIStr "rand", chrRx '('],
      rxSeqs [.wb, rxIStr "random", chrRx '.', .wb, .nla (rxIStr "secure")]]
    info :=
      { severity := .medium
        issue := "Use of non-cryptographically secure random number generator"
        recommendation := "Use cryptographically secure random generators for security-sensitive operations"
        example_ := some "const crypto = require(\x27crypto\x27); const secureValue = crypto.randomBytes(16);"
        reference := some "https://owasp.org/www-community/vulnerabilities/Insecure_Randomness" } }

/-- Tier-1 security table added when strictness is at least 3, source order. -/
def medium_security_patterns : List PatRule :=
  [pathTraversalRule, insecureRandomRule]

/-- ReDoS pattern (strictness tier 2): (?i)(\.\*|\.\+|\d+,\s*([^,]|\n)*).*\* -/
def redosRule : PatRule :=
  { pattern := rxSeqs [
      rxAlts [rxStr ".*", rxStr ".+",
        rxSeqs [plusC digitChar, chrRx ',', .starC spaceChar,
          .starC (fun c => !(c == ',') || c == '\n')]],
      dotStar, chrRx '*']
    info :=
      { severity := .medium
        issue := "Regular expression pattern susceptible to ReDoS attacks"
        recommendation := "Avoid nested quantifiers and use atomic groups or possessive quantifiers"
        example_ := some "Use /^(a+)+$/.test(input) -> /^(?>(a+))+$/.test(input) or impose input length limits"
        reference := some "https://owasp.org/www-community/attacks/Regular_expression_Denial_of_Service_-_ReDoS" } }

/-- CORS misconfiguration pattern (strictness tier 2):
(?i)Access-Control-Allow-Origin:\s*\* -/
def corsRule : PatRule :=
  { pattern := rxSeqs [rxIStr "Access-Control-Allow-Origin:", .starC spaceChar, chrRx '*']
    info :=
      { severity := .medium
        issue := "Overly permissive CORS policy"
        recommendation := "Restrict CORS to specific trusted domains rather than using a wildcard"
        example_ := some "Access-Control-Allow-Origin: https://trusted-domain.com"
        reference := some "https://owasp.org/www-community/attacks/CORS_OriginHeaderScrutiny" } }

/-- Tier-2 security table added when strictness is at least 4, source order. -/
def high_security_patterns : List PatRule :=
  [redosRule, corsRule]

/-- JavaScript eval pattern: (?i)\beval\s*\( -/
def jsEvalRule : PatRule :=
  { pattern := rxSeqs [.wb, rxIStr "eval", .starC spaceChar, chrRx '(']
    info :=
      { severity := .high
        issue := "Use of eval() can lead to code injection vulnerabilities"
        recommendation := "Avoid using eval(); use safer alternatives"
        example_ := some "Instead of eval(jsonString), use JSON.parse(jsonString)"
        reference := some "https://owasp.org/www-community/attacks/Code_Injection" } }

/-- Prototype pollution pattern: (?i)Object\.assign\(\x7b?\x7d?,\s*[^,]+\) -/
def protoPollutionRule : PatRule :=
  { pattern := rxSeqs [rxIStr "Object", chrRx '.', rxIStr "assign", chrRx '(',
      .opt (chrRx '\x7b'), .opt (chrRx '\x7d'), chrRx ',', .starC spaceChar,
      plusC (fun c => !(c == ',')), chrRx ')']
    info :=
      { severity := .medium
        issue := "Potential prototype pollution vulnerability"
        recommendation := "Use safe object cloning or Object.create(null)"
        example_ := some "const obj = Object.create(null); Object.assign(obj, userInput);"
        reference := some "https://owasp.org/www-project-web-security-testing-guide/latest/4-Web_Application_Security_Testing/11-Client-side_Testing/prototype-pollution.html" } }

/-- Language table for javascript and typescript, source order. -/
def js_security_patterns : List PatRule :=
  [jsEvalRule, protoPollutionRule]

/-- Python dynamic code execution pattern:
(?i)\beval\s*\(|\bexec\s*\(|\bcompile\s*\( -/
def pyEvalRule : PatRule :=
  { pattern := rxAlts [
      rxSeqs [.wb, rxIStr "eval", .starC spaceChar, chrRx '('],
      rxSeqs [.wb, rxIStr "exec", .starC spaceChar, chrRx '('],
      rxSeqs [.wb, rxIStr "compile", .starC spaceChar, chrRx '(']]
    info :=
      { severity := .high
        issue := "Use of eval(), exec(), or compile() can lead to code execution vulnerabilities"
        recommendation := "Avoid executing dynamic code; use safer alternatives"
        example_ := some "Instead of eval(expression), use ast.literal_eval() for safe evaluation of literals"
        reference := some "https://owasp.org/www-community/attacks/Code_Injection" } }

/-- Pickle deserialization pattern: (?i)pickle\.loads?\(|marshal\.loads?\( -/
def pickleRule : PatRule :=
  { pattern := rxAlts [
      rxSeqs [rxIStr "pickle", chrRx '.', rxIStr "load", .opt (ichrRx 's'), chrRx '('],
      rxSeqs [rxIStr "marshal", chrRx '.', rxIStr "load", .opt (ichrRx 's'), chrRx '(']]
    info :=
      { severity := .high
        issue := "Insecure deserialization with pickle/marshal"
        recommendation := "Use safer serialization formats like JSON"
        example_ := some "import json; data = json.loads(user_input)"
        reference := some "https://owasp.org/www-community/vulnerabilities/Deserialization_of_untrusted_data" } }

/-- Language table for python, source order. -/
def py_security_patterns : List PatRule :=
  [pyEvalRule, pickleRule]

/-- Nested-loop pattern of _analyze_performance (language independent):
for\s+\w+\s+in\s+.*:\s*[^\n]*\n\s+for\s+\w+\s+in -/
def nestedLoopsRule : PatRule :=
  { pattern := rxSeqs [rxStr "for", plusC spaceChar, plusC wordChar, plusC spaceChar,
      rxStr "in", plusC spaceChar, dotStar, chrRx ':', .starC spaceChar,
      .starC (fun c => !(c == '\n')), chrRx '\n', plusC spaceChar,
      rxStr "for", plusC spaceChar, plusC wordChar, plusC spaceChar, rxStr "in"]
    info :=
      { severity := .medium
        issue := "Nested loops may lead to O(n²) time complexity"
        recommendation := "Consider restructuring the algorithm to avoid nested iterations"
        example_ := some "Use a more efficient data structure or algorithm to reduce time complexity"
        reference := none } }

/-- Common performance table of _analyze_performance. -/
def performance_patterns_base : List PatRule := [nestedLoopsRule]

/-- Inefficient DOM query pattern: (?i)document\.getElements?By -/
def domQueryRule : PatRule :=
  { pattern := rxSeqs [rxIStr "document", chrRx '.', rxIStr "getElement", .opt (ichrRx 's'),
      rxIStr "By"]
    info :=
      { severity := .low
        issue := "Repeated DOM queries may cause performance issues"
        recommendation := "Cache DOM elements in variables if used multiple times"
        example_ := some "const elements = document.getElementsByClassName(\x27item\x27); // Cache once and reuse"
        reference := none } }

/-- Array modification in loop pattern:
for\s*\([^)]+\)\s*\x7b\s*[^\x7d]*\.(push|splice|unshift) -/
def arrayInLoopRule : PatRule :=
  { pattern := rxSeqs [rxStr "for", .starC spaceChar, chrRx '(',
      plusC (fun c => !(c == ')')), chrRx ')', .starC spaceChar, chrRx '\x7b',
      .starC spaceChar, .starC (fun c => !(c == '\x7d')), chrRx '.',
      rxAlts [rxStr "push", rxStr "splice", rxStr "unshift"]]
    info :=
      { severity := .medium
        issue := "Modifying arrays inside loops can be inefficient"
        recommendation := "Consider using map, filter, or reduce for array transformations"
        example_ := some "const newArray = originalArray.map(item => transformItem(item));"
        reference := none } }

/-- Performance language table for javascript and typescript, source order. -/
def js_performance_patterns : List PatRule := [domQueryRule, arrayInLoopRule]

/-- Append-in-loop pattern: for\s+\w+\s+in\s+[^:]+:\s*[^\n]*\n\s+\w+\.append -/
def pyAppendRule : PatRule :=
  { pattern := rxSeqs [rxStr "for", plusC spaceChar, plusC wordChar, plusC spaceChar,
      rxStr "in", plusC spaceChar, plusC (fun c => !(c == ':')), chrRx ':',
      .starC spaceChar, .starC (fun c => !(c == '\n')), chrRx '\n', plusC spaceChar,
      plusC wordChar, chrRx '.', rxStr "append"]
    info :=
      { severity := .low
        issue := "Using list.append() in a loop instead of a list comprehension"
        recommendation := "Use list comprehension for building lists when possible"
        example_ := some "new_list = [transform(item) for item in original_list]"
        reference := none } }

/-- Inefficient string concatenation pattern: \+= \" -/
def pyConcatRule : PatRule :=
  { pattern := rxStr "+= \x22"
    info :=
      { severity := .low
        issue := "Inefficient string concatenation in a loop"
        recommendation := "Use \x27\x27.join() or string formatting for building strings"
        example_ := some "result = \x27\x27.join(parts) instead of repeated += operations"
        reference := none } }

/-- Performance language table for python, source order. -/
def py_performance_patterns : List PatRule := [pyAppendRule, pyConcatRule]

/-- Long function pattern of _analyze_code_quality:
(def|function)\s+\w+[^\x7b]*\x7b[^\x7d]\x7b500,\x7d\x7d -/
def longFunctionRule : PatRule :=
  { pattern := rxSeqs [rxAlts [rxStr "def", rxStr "function"], plusC spaceChar,
      plusC wordChar, .starC (fun c => !(c == '\x7b')), chrRx '\x7b',
      .repC 500 (fun c => !(c == '\x7d')), chrRx '\x7d']
    info :=
      { severity := .medium
        issue := "Function is too long (over 500 characters)"
        recommendation := "Break down large functions into smaller, focused functions"
        example_ := none
        reference := none } }

/-- Magic number pattern: [^A-Za-z0-9_\"']\d\x7b4,\x7d[^A-Za-z0-9_] -/
def magicNumberRule : PatRule :=
  { pattern := rxSeqs [
      .cls (fun c => !(c.isAlphanum || c == '_' || c == '\x22' || c == '\x27')),
      .repC 4 digitChar,
      .cls (fun c => !(c.isAlphanum || c == '_'))]
    info :=
      { severity := .low
        issue := "Magic number detected"
        recommendation := "Replace magic numbers with named constants for better readability"
        example_ := none
        reference := none } }

/-- TODO comment pattern: (?i)//\s*TODO|#\s*TODO -/
def todoRule : PatRule :=
  { pattern := rxAlts [
      rxSeqs [rxStr "//", .starC spaceChar, rxIStr "TODO"],
      rxSeqs [chrRx '#', .starC spaceChar, rxIStr "TODO"]]
    info :=
      { severity := .low
        issue := "TODO comment found"
        recommendation := "Address TODO comments before finalizing the PR"
        example_ := none
        reference := none } }

/-- Common quality table of _analyze_code_quality, source order. -/
def quality_patterns_base : List PatRule := [longFunctionRule, magicNumberRule, todoRule]

/-- Console statement pattern: console\.(log|debug|info|warn|error)\( -/
def consoleRule : PatRule :=
  { pattern := rxSeqs [rxStr "console", chrRx '.',
      rxAlts [rxStr "log", rxStr "debug", rxStr "info", rxStr "warn", rxStr "error"],
      chrRx '(']
    info :=
      { severity := .low
        issue := "Console statement in production code"
        recommendation := "Remove or wrap console statements in development-only conditionals"
        example_ := none
        reference := none } }

/-- Callback nesting pattern: \x7d\)[^)]*\(\s*function\s*\([^)]*\)\s*\x7b -/
def callbackHellRule : PatRule :=
  { pattern := rxSeqs [chrRx '\x7d', chrRx ')', .starC (fun c => !(c == ')')),
      chrRx '(', .starC spaceChar, rxStr "function", .starC spaceChar, chrRx '(',
      .starC (fun c => !(c == ')')), chrRx ')', .starC spaceChar, chrRx '\x7b']
    info :=
      { severity := .medium
        issue := "Nested callbacks (callback hell) detected"
        recommendation := "Refactor to use Promises, async/await, or named functions"
        example_ := none
        reference := none } }

/-- Quality language table for javascript and typescript, source order. -/
def js_quality_patterns : List PatRule := [consoleRule, callbackHellRule]

/-- Print statement pattern: print\s*\( -/
def printRule : PatRule :=
  { pattern := rxSeqs [rxStr "print", .starC spaceChar, chrRx '(']
    info :=
      { severity := .low
        issue := "Print statement in production code"
        recommendation := "Use proper logging instead of print statements"
        example_ := none
        reference := none } }

/-- Bare except pattern: except: -/
def bareExceptRule : PatRule :=
  { pattern := rxStr "except:"
    info :=
      { severity := .medium
        issue := "Bare except clause"
        recommendation := "Specify the exceptions to catch instead of using a bare except"
        example_ := none
        reference := none } }

/-- Quality language table for python, source order. -/
def py_quality_patterns : List PatRule := [printRule, bareExceptRule]

/-- A testable-pattern entry of _analyze_test_coverage: a regex, its number
of capture groups (the length of match.groups()), and the issue info. -/
structure TcRule where
  pattern : Rx
  nGroups : Nat
  info : RuleInfo

/-- Exported module pattern for javascript:
export\s+(default\s+)?((class|function|const|let|var)\s+)?(\w+) -/
def jsExportRule : TcRule :=
  { pattern := rxSeqs [rxStr "export", plusC spaceChar,
      .opt (.grp 1 (rxSeqs [rxStr "default", plusC spaceChar])),
      .opt (.grp 2 (rxSeqs [.grp 3 (rxAlts [rxStr "class", rxStr "function",
        rxStr "const", rxStr "let", rxStr "var"]), plusC spaceChar])),
      .grp 4 (plusC wordChar)]
    nGroups := 4
    info :=
      { severity := .medium
        issue := "Exported module lacks corresponding test file"
        recommendation := "Create a test file for this module"
        example_ := none
        reference := none } }

/-- Undocumented function pattern for python:
def\s+(\w+)\s*\([^)]*\):\s*(?!\"\"\"|\x27\x27\x27) -/
def pyDefRule : TcRule :=
  { pattern := rxSeqs [rxStr "def", plusC spaceChar, .grp 1 (plusC wordChar),
      .starC spaceChar, chrRx '(', .starC (fun c => !(c == ')')), chrRx ')',
      chrRx ':', .starC spaceChar,
      .nla (rxAlts [rxStr "\x22\x22\x22", rxStr "\x27\x27\x27"])]
    nGroups := 1
    info :=
      { severity := .medium
        issue := "Function lacks docstring and possibly tests"
        recommendation := "Add docstring and ensure function is tested"
        example_ := none
        reference := none } }

/-- Class pattern for python: class\s+(\w+)[^:]*: -/
def pyClassRule : TcRule :=
  { pattern := rxSeqs [rxStr "class", plusC spaceChar, .grp 1 (plusC wordChar),
      .starC (fun c => !(c == ':')), chrRx ':']
    nGroups := 1
    info :=
      { severity := .medium
        issue := "Class might need dedicated tests"
        recommendation := "Ensure this class has test coverage"
        example_ := none
        reference := none } }

/-- The testable_patterns dictionary of _analyze_test_coverage keyed by
language, with .get of any other language returning the empty table. -/
def testable_patterns (language : String) : List TcRule :=
  if language == "javascript" then [jsExportRule]
  else if language == "python" then [pyDefRule, pyClassRule]
  else []

/-- A custom rule value shaped as documented in the specification (id plus
applicability fields); the review code of the repository accepts these in
configuration but never reads them, so only the shape matters here. -/
structure CustomRule where
  id : String
  languages : List String
  min_strictness : Nat
  severity : Severity
  issue : String
deriving DecidableEq

/-- The issue_thresholds map of _get_default_config. -/
structure Thresholds where
  critical : String
  high : String
  medium : String
  low : String
deriving DecidableEq

/-- The merged configuration dictionary of review_code. A skip pattern is
modelled by its re.search denotation on filenames; skip_patterns is an
Option because the default dictionary has no such key and _should_skip_file
tests for its presence. -/
structure Config where
  strictness_level : Nat
  focus_areas : List String
  verbosity : String
  issue_thresholds : Thresholds
  language_rules : List (String × List CustomRule)
  custom_rules : List CustomRule
  skip_patterns : Option (List (String → Bool))

/-- The caller-supplied configuration dictionary of review_code: any subset
of the documented keys may be present. -/
structure UserConfig where
  strictness_level : Option Nat := none
  focus_areas : Option (List String) := none
  verbosity : Option String := none
  issue_thresholds : Option Thresholds := none
  language_rules : Option (List (String × List CustomRule)) := none
  custom_rules : Option (List CustomRule) := none
  skip_patterns : Option (List (String → Bool)) := none

/-- The default configuration of _get_default_config. -/
def _get_default_config : Config :=
  { strictness_level := 3
    focus_areas := ["security", "performance", "code_quality"]
    verbosity := "normal"
    issue_thresholds :=
      { critical := "block", high := "block", medium := "warn", low := "report" }
    language_rules := []
    custom_rules := []
    skip_patterns := none }

/-- The key-by-key overwrite of the default configuration with the supplied
one performed at the top of review_code. -/
def mergeConfig (u : UserConfig) : Config :=
  { strictness_level := u.strictness_level.getD _get_default_config.strictness_level
    focus_areas := u.focus_areas.getD _get_default_config.focus_areas
    verbosity := u.verbosity.getD _get_default_config.verbosity
    issue_thresholds := u.issue_thresholds.getD _get_default_config.issue_thresholds
    language_rules := u.language_rules.getD _get_default_config.language_rules
    custom_rules := u.custom_rules.getD _get_default_config.custom_rules
    skip_patterns := u.skip_patterns }

/-- Suffix test on strings by character lists (kernel-reducible endsWith). -/
def strEndsWith (s suffix : String) : Bool :=
  suffix.toList.reverse.isPrefixOf s.toList.reverse

/-- Prefix test on strings by character lists (kernel-reducible startsWith). -/
def strStartsWith (s pre : String) : Bool :=
  pre.toList.isPrefixOf s.toList

/-- Lower-casing of a character list (kernel-reducible str.lower()). -/
def lowerChars (l : List Char) : List Char := l.map Char.toLower

/-- The built-in skip pattern list of _should_skip_file, each regex replaced
by its re.search denotation on the filename. -/
def builtin_skip_patterns : List (String → Bool) :=
  [fun f => [".png", ".jpg", ".jpeg", ".gif", ".svg", ".ico", ".ttf", ".woff",
      ".woff2", ".eot", ".pdf", ".zip", ".tar", ".gz", ".rar"].any
      (fun ext => strEndsWith f ext),
   fun f => strStartsWith f "dist/",
   fun f => strStartsWith f "build/",
   fun f => strStartsWith f "node_modules/",
   fun f => strStartsWith f "vendor/",
   fun f => strStartsWith f ".git/",
   fun f => strEndsWith f "package-lock.json",
   fun f => strEndsWith f "yarn.lock",
   fun f => strStartsWith f "__pycache__/",
   fun f => strEndsWith f ".min.js" || strEndsWith f ".min.css"]

/-- The skip decision of _should_skip_file: the built-in patterns, extended
by the configured skip_patterns when that key is present, searched in order. -/
def _should_skip_file (filename : String) (config : Config) : Bool :=
  (builtin_skip_patterns ++ config.skip_patterns.getD []).any (fun p => p filename)

/-- The extension dictionary of _detect_language. -/
def extensionsTable : List (String × String × String) :=
  [(".js", "javascript", "source"), (".jsx", "javascript", "react"),
   (".ts", "typescript", "source"), (".tsx", "typescript", "react"),
   (".py", "python", "source"), (".go", "go", "source"),
   (".java", "java", "source"), (".kt", "kotlin", "source"),
   (".rb", "ruby", "source"), (".php", "php", "source"),
   (".c", "c", "source"), (".cpp", "cpp", "source"),
   (".h", "c", "header"), (".hpp", "cpp", "header"),
   (".cs", "csharp", "source"), (".html", "html", "markup"),
   (".xml", "xml", "markup"), (".json", "json", "data"),
   (".yaml", "yaml", "data"), (".yml", "yaml", "data"),
   (".md", "markdown", "documentation"), (".css", "css", "style"),
   (".scss", "scss", "style"), (".less", "less", "style"),
   (".sh", "shell", "script"), (".bat", "batch", "script"),
   (".ps1", "powershell", "script"), (".sql", "sql", "database"),
   (".dockerfile", "dockerfile", "config"), ("Dockerfile", "dockerfile", "config"),
   (".gitignore", "gitignore", "config"), (".env", "env", "config"),
   (".toml", "toml", "config"), (".ini", "ini", "config")]

/-- The basename of a path: the part after the last slash. -/
def baseNameChars (l : List Char) : List Char :=
  (l.reverse.takeWhile (fun c => !(c == '/'))).reverse

/-- The extension part of os.path.splitext: the suffix from the rightmost
dot of the basename, empty when the basename has no dot or only leading
dots before it. -/
def splitextExt (filename : String) : String :=
  let base := baseNameChars filename.toList
  match base.reverse.findIdx? (fun c => c == '.') with
  | none => ""
  | some k =>
    let p := base.length - 1 - k
    if (base.take p).any (fun c => !(c == '.')) then String.mk (base.drop p) else ""

/-- Language and file type detection of _detect_language: exact filename
match first, then extension, else unknown. -/
def _detect_language (filename : String) : String × String :=
  match extensionsTable.lookup filename with
  | some lf => lf
  | none =>
    match extensionsTable.lookup (splitextExt filename) with
    | some lf => lf
    | none => ("unknown", "unknown")

/-- The security rule table assembled by _analyze_security for a given
language and configuration: always-on patterns, tier-1 patterns when
strictness is at least 3, tier-2 patterns when at least 4, then the
language-specific patterns, in dictionary insertion order. -/
def security_patterns (language : String) (config : Config) : List PatRule :=
  let strictness := config.strictness_level
  (security_patterns_base
      ++ (if 3 ≤ strictness then medium_security_patterns else [])
      ++ (if 4 ≤ strictness then high_security_patterns else []))
    ++ (if language == "javascript" || language == "typescript" then js_security_patterns
        else if language == "python" then py_security_patterns
        else [])

/-- Security analysis of one file: every finditer match of every rule in the
assembled table produces one issue with a 1-based line number. -/
def _analyze_security (filename : String) (content : List Char) (language : String)
    (fileType : String) (config : Config) : List Issue :=
  let _ := fileType
  (security_patterns language config).flatMap (patternIssues filename content)

/-- The performance rule table assembled by _analyze_performance: common
patterns then language-specific ones; strictness is read but unused. -/
def performance_patterns (language : String) : List PatRule :=
  performance_patterns_base
    ++ (if language == "javascript" || language == "typescript" then js_performance_patterns
        else if language == "python" then py_performance_patterns
        else [])

/-- Performance analysis of one file. -/
def _analyze_performance (filename : String) (content : List Char) (language : String)
    (fileType : String) (config : Config) : List Issue :=
  let _ := fileType
  let _strictness := config.strictness_level
  (performance_patterns language).flatMap (patternIssues filename content)

/-- The quality rule table assembled by _analyze_code_quality: common
patterns then language-specific ones; strictness is read but unused. -/
def quality_patterns (language : String) : List PatRule :=
  quality_patterns_base
    ++ (if language == "javascript" || language == "typescript" then js_quality_patterns
        else if language == "python" then py_quality_patterns
        else [])

/-- Code quality analysis of one file. -/
def _analyze_code_quality (filename : String) (content : List Char) (language : String)
    (fileType : String) (config : Config) : List Issue :=
  let _ := fileType
  let _strictness := config.strictness_level
  (quality_patterns language).flatMap (patternIssues filename content)

/-- Substring containment on character lists: the Python in operator for
strings. -/
def containsSub (needle hay : List Char) : Bool :=
  (List.range (hay.length + 1)).any (fun i => needle.isPrefixOf (hay.drop i))

/-- The keyword list used when extracting an identifier from capture groups. -/
def tcKeywords : List String := ["class", "function", "const", "let", "var", "default"]

/-- A captured group is usable as an identifier when it participated in the
match, is non-empty, and contains none of the keywords as a substring. -/
def usableGroup (g : List Char) : Bool :=
  !g.isEmpty && tcKeywords.all (fun kw => !(containsSub kw.toList g))

/-- The first usable group of a match in group index order, as selected by
the for-loop over match.groups() in _analyze_test_coverage. -/
def firstUsableGroup (caps : Caps) (n : Nat) : Option (List Char) :=
  ((List.range n).map (fun k => k + 1)).findSome? (fun k =>
    match caps.lookup k with
    | some g => if usableGroup g then some g else none
    | none => none)

/-- The issue record _analyze_test_coverage appends for one match,
personalising the message and recommendation when an identifier was found. -/
def tcMkIssue (filename : String) (content : List Char) (r : TcRule)
    (m : Nat × Nat × Caps) : Issue :=
  let identifier := firstUsableGroup m.2.2 r.nGroups
  { file := filename
    line := (content.take m.1).count '\n' + 1
    severity := r.info.severity
    issue :=
      match identifier with
      | some g => String.mk g ++ ": " ++ r.info.issue
      | none => r.info.issue
    recommendation :=
      match identifier with
      | some g => r.info.recommendation ++ " for " ++ String.mk g
      | none => r.info.recommendation
    example_ := r.info.example_
    reference := r.info.reference }

/-- Test coverage analysis of one file: files whose lowercased name contains
the substring test or spec are exempt; otherwise every match of every rule
of the language table produces one issue. -/
def _analyze_test_coverage (filename : String) (content : List Char) (language : String)
    (fileType : String) (config : Config) : List Issue :=
  let _ := fileType
  let _ := config
  if (containsSub "test".toList (lowerChars filename.toList)
      || containsSub "spec".toList (lowerChars filename.toList)) then []
  else
    (testable_patterns language).flatMap (fun r =>
      (findIter r.pattern content).map (tcMkIssue filename content r))

/-- A changed-file record as returned by the collaborator for a pull
request: filename, status, and diff statistics. -/
structure FileMeta where
  filename : String
  status : String
  additions : Nat
  deletions : Nat
deriving DecidableEq

/-- Per-category issue counters of the statistics block. -/
structure IssueCounts where
  security : Nat
  performance : Nat
  code_quality : Nat
  test_coverage : Nat
deriving DecidableEq

/-- Per-severity counters of the statistics block. -/
structure SevCounts where
  critical : Nat
  high : Nat
  medium : Nat
  low : Nat
deriving DecidableEq

/-- The statistics block of the review results. -/
structure Stats where
  files_analyzed : Nat
  lines_added : Nat
  lines_removed : Nat
  issue_counts : IssueCounts
  severity_counts : SevCounts
deriving DecidableEq

/-- The results dictionary of review_code. -/
structure ReviewResult where
  security_issues : List Issue
  performance_issues : List Issue
  code_quality_issues : List Issue
  test_coverage_issues : List Issue
  statistics : Stats
deriving DecidableEq

/-- The results structure as initialised at the top of review_code: empty
issue lists, file and line statistics computed over the whole input list,
zeroed counters. -/
def initResults (files : List FileMeta) : ReviewResult :=
  { security_issues := []
    performance_issues := []
    code_quality_issues := []
    test_coverage_issues := []
    statistics :=
      { files_analyzed := files.length
        lines_added := (files.map (fun f => f.additions)).sum
        lines_removed := (files.map (fun f => f.deletions)).sum
        issue_counts :=
          { security := 0, performance := 0, code_quality := 0, test_coverage := 0 }
        severity_counts := { critical := 0, high := 0, medium := 0, low := 0 } } }

/-- One iteration of the per-file loop of review_code: skip-pattern check,
content fetch (empty for removed files), empty-content check, language
detection, then the four analyses with list extension and counter updates.
The contents function models get_file_content at the PR head ref. -/
def processFile (contents : String → List Char) (config : Config)
    (r : ReviewResult) (f : FileMeta) : ReviewResult :=
  if _should_skip_file f.filename config then r
  else
    let content := if f.status != "removed" then contents f.filename else []
    if content.isEmpty then r
    else
      let lf := _detect_language f.filename
      let sec := _analyze_security f.filename content lf.1 lf.2 config
      let perf := _analyze_performance f.filename content lf.1 lf.2 config
      let qual := _analyze_code_quality f.filename content lf.1 lf.2 config
      let tc := _analyze_test_coverage f.filename content lf.1 lf.2 config
      { r with
        security_issues := r.security_issues ++ sec
        performance_issues := r.performance_issues ++ perf
        code_quality_issues := r.code_quality_issues ++ qual
        test_coverage_issues := r.test_coverage_issues ++ tc
        statistics :=
          { r.statistics with
            issue_counts :=
              { security := r.statistics.issue_counts.security + sec.length
                performance := r.statistics.issue_counts.performance + perf.length
                code_quality := r.statistics.issue_counts.code_quality + qual.length
                test_coverage := r.statistics.issue_counts.test_coverage + tc.length } } }

/-- The severity bucket increment of the final pass of review_code. -/
def bumpSeverity (sc : SevCounts) : Severity → SevCounts
  | .critical => { sc with critical := sc.critical + 1 }
  | .high => { sc with high := sc.high + 1 }
  | .medium => { sc with medium := sc.medium + 1 }
  | .low => { sc with low := sc.low + 1 }

/-- The four category lists of a result in the order the severity pass of
review_code walks them. -/
def allIssues (r : ReviewResult) : List Issue :=
  r.security_issues ++ r.performance_issues ++ r.code_quality_issues ++ r.test_coverage_issues

/-- review_code: merge the configuration over the defaults, initialise the
results from the whole file list, run the per-file loop, then compute the
severity counters in a second pass over the four category lists. -/
def review_code (files : List FileMeta) (contents : String → List Char)
    (config : UserConfig) : ReviewResult :=
  let cfg := mergeConfig config
  let base := files.foldl (processFile contents cfg) (initResults files)
  { base with
    statistics :=
      { base.statistics with
        severity_counts :=
          (allIssues base).foldl (fun sc i => bumpSeverity sc i.severity)
            base.statistics.severity_counts } }

/-- Sum of the four severity buckets. -/
def sevSum (sc : SevCounts) : Nat := sc.critical + sc.high + sc.medium + sc.low

lemma processFile_stats (contents : String → List Char) (cfg : Config)
    (r : ReviewResult) (f : FileMeta) :
    (processFile contents cfg r f).statistics.files_analyzed = r.statistics.files_analyzed ∧
    (processFile contents cfg r f).statistics.lines_added = r.statistics.lines_added ∧
    (processFile contents cfg r f).statistics.lines_removed = r.statistics.lines_removed ∧
    (processFile contents cfg r f).statistics.severity_counts = r.statistics.severity_counts := by
  simp only [processFile]
  repeat' split
  all_goals exact ⟨rfl, rfl, rfl, rfl⟩

lemma foldl_stats (contents : String → List Char) (cfg : Config) :
    ∀ (files : List FileMeta) (r : ReviewResult),
    (files.foldl (processFile contents cfg) r).statistics.files_analyzed = r.statistics.files_analyzed ∧
    (files.foldl (processFile contents cfg) r).statistics.lines_added = r.statistics.lines_added ∧
    (files.foldl (processFile contents cfg) r).statistics.lines_removed = r.statistics.lines_removed ∧
    (files.foldl (processFile contents cfg) r).statistics.severity_counts = r.statistics.severity_counts := by
  intro files
  induction files with
  | nil => intro r; exact ⟨rfl, rfl, rfl, rfl⟩
  | cons f fs ih =>
    intro r
    obtain ⟨a, b, c, d⟩ := ih (processFile contents cfg r f)
    obtain ⟨a2, b2, c2, d2⟩ := processFile_stats contents cfg r f
    simp only [List.foldl_cons]
    exact ⟨a.trans a2, b.trans b2, c.trans c2, d.trans d2⟩

lemma processFile_counts (contents : String → List Char) (cfg : Config)
    (r : ReviewResult) (f : FileMeta)
    (h : r.statistics.issue_counts.security = r.security_issues.length ∧
      r.statistics.issue_counts.performance = r.performance_issues.length ∧
      r.statistics.issue_counts.code_quality = r.code_quality_issues.length ∧
      r.statistics.issue_counts.test_coverage = r.test_coverage_issues.length) :
    (processFile contents cfg r f).statistics.issue_counts.security =
      (processFile contents cfg r f).security_issues.length ∧
    (processFile contents cfg r f).statistics.issue_counts.performance =
      (processFile contents cfg r f).performance_issues.length ∧
    (processFile contents cfg r f).statistics.issue_counts.code_quality =
      (processFile contents cfg r f).code_quality_issues.length ∧
    (processFile contents cfg r f).statistics.issue_counts.test_coverage =
      (processFile contents cfg r f).test_coverage_issues.length := by
  obtain ⟨a, b, c, d⟩ := h
  simp only [processFile]
  repeat' split
  all_goals first
    | exact ⟨a, b, c, d⟩
    | (refine ⟨?_, ?_, ?_, ?_⟩ <;> simp [List.length_append] <;> omega)

lemma foldl_counts (contents : String → List Char) (cfg : Config) :
    ∀ (files : List FileMeta) (r : ReviewResult),
    (r.statistics.issue_counts.security = r.security_issues.length ∧
      r.statistics.issue_counts.performance = r.performance_issues.length ∧
      r.statistics.issue_counts.code_quality = r.code_quality_issues.length ∧
      r.statistics.issue_counts.test_coverage = r.test_coverage_issues.length) →
    ((files.foldl (processFile contents cfg) r).statistics.issue_counts.security =
      (files.foldl (processFile contents cfg) r).security_issues.length ∧
    (files.foldl (processFile contents cfg) r).statistics.issue_counts.performance =
      (files.foldl (processFile contents cfg) r).performance_issues.length ∧
    (files.foldl (processFile contents cfg) r).statistics.issue_counts.code_quality =
      (files.foldl (processFile contents cfg) r).code_quality_issues.length ∧
    (files.foldl (processFile contents cfg) r).statistics.issue_counts.test_coverage =
      (files.foldl (processFile contents cfg) r).test_coverage_issues.length) := by
  intro files
  induction files with
  | nil => intro r h; exact h
  | cons f fs ih =>
    intro r h
    simp only [List.foldl_cons]
    exact ih (processFile contents cfg r f) (processFile_counts contents cfg r f h)

lemma sevSum_bump (sc : SevCounts) (s : Severity) :
    sevSum (bumpSeverity sc s) = sevSum sc + 1 := by
  cases s <;> simp [bumpSeverity, sevSum] <;> omega

lemma sevSum_foldl :
    ∀ (l : List Issue) (sc : SevCounts),
    sevSum (l.foldl (fun sc i => bumpSeverity sc i.severity) sc) = sevSum sc + l.length := by
  intro l
  induction l with
  | nil => intro sc; simp
  | cons i is ih =>
    intro sc
    simp only [List.foldl_cons, List.length_cons]
    rw [ih (bumpSeverity sc i.severity), sevSum_bump]
    omega

/-- C4: review_code sets statistics.files_analyzed to the length of the
input file list, and statistics.lines_added and lines_removed to the sums
of additions and deletions over all input files, independently of how many
files the per-file loop skips. -/
theorem review_code_whole_list_statistics (files : List FileMeta)
    (contents : String → List Char) (config : UserConfig) :
    (review_code files contents config).statistics.files_analyzed = files.length ∧
    (review_code files contents config).statistics.lines_added =
      (files.map (fun f => f.additions)).sum ∧
    (review_code files contents config).statistics.lines_removed =
      (files.map (fun f => f.deletions)).sum := by
  obtain ⟨a, b, c, _⟩ := foldl_stats contents (mergeConfig config) files (initResults files)
  exact ⟨a, b, c⟩

/-- C9: two runs of review_code on the same inputs whose configurations
differ only in issue_thresholds produce identical results, because no step
of the skip check, rule selection, scanning or aggregation reads that field. -/
theorem review_code_ignores_issue_thresholds (files : List FileMeta)
    (contents : String → List Char) (u : UserConfig) (t : Option Thresholds) :
    review_code files contents { u with issue_thresholds := t } =
      review_code files contents u := by
  cases u
  rfl

/-- C3 (amended): custom_rules and language_rules are accepted by the
configuration merge but never consumed: review results and the assembled
security rule table are invariant under them. -/
theorem review_code_ignores_custom_rules (files : List FileMeta)
    (contents : String → List Char) (u : UserConfig)
    (cr : Option (List CustomRule)) (lr : Option (List (String × List CustomRule))) :
    review_code files contents { u with custom_rules := cr, language_rules := lr } =
      review_code files contents u ∧
    ∀ (language : String) (c : Config) (cr2 : List CustomRule)
      (lr2 : List (String × List CustomRule)),
      security_patterns language { c with custom_rules := cr2, language_rules := lr2 } =
        security_patterns language c := by
  constructor
  · cases u; rfl
  · intro language c cr2 lr2; cases c; rfl

/-- Configuration with one custom rule, used to refute the original C3. -/
def c3CustomRule : CustomRule :=
  { id := "no-fixme", languages := [], min_strictness := 1, severity := .low,
    issue := "Custom FIXME marker rule" }

/-- The merged configuration carrying c3CustomRule. -/
def c3Config : Config := mergeConfig { custom_rules := some [c3CustomRule] }

/-- C3 counterexample: c3CustomRule is in custom_rules, applies to every
language, and its min_strictness is within the configured strictness, yet
the effective security rule table contains no rule with its issue text and
the security analysis output is the same as under the default
configuration, so custom rules are not unioned into the rule set. -/
theorem custom_rule_not_in_effective_rule_set :
    c3CustomRule ∈ c3Config.custom_rules ∧
    c3CustomRule.languages = [] ∧
    c3CustomRule.min_strictness ≤ c3Config.strictness_level ∧
    (security_patterns "python" c3Config).all
      (fun r => r.info.issue != c3CustomRule.issue) = true ∧
    _analyze_security "m.py" ("x = 1").toList "python" "source" c3Config =
      _analyze_security "m.py" ("x = 1").toList "python" "source" (mergeConfig {}) := by
  refine ⟨?_, ?_, ?_, ?_, ?_⟩ <;> decide

/-- C10: a file whose lowercased name contains the substring test or spec
is exempt from test-coverage analysis: the result is empty regardless of
content, language, file type and configuration. -/
theorem test_files_exempt_from_coverage (fn : String) (content : List Char)
    (lang ft : String) (cfg : Config)
    (h : (containsSub "test".toList (lowerChars fn.toList)
        || containsSub "spec".toList (lowerChars fn.toList)) = true) :
    _analyze_test_coverage fn content lang ft cfg = [] := by
  simp only [_analyze_test_coverage, h, if_pos]

/-- Witness for C10 at a concrete test file name and content. -/
theorem test_files_exempt_from_coverage_witness :
    (containsSub "test".toList (lowerChars ("test_app.py").toList)
        || containsSub "spec".toList (lowerChars ("test_app.py").toList)) = true ∧
    _analyze_test_coverage "test_app.py" ("class A: pass").toList "python" "source"
      (mergeConfig {}) = [] :=
  ⟨by decide,
   test_files_exempt_from_coverage "test_app.py" ("class A: pass").toList "python" "source"
     (mergeConfig {}) (by decide)⟩

/-- C1: in every review_code result, each per-category issue counter equals
the length of the corresponding issue list, and the severity counters sum
to the total of the per-category counters. -/
theorem review_code_counts_invariant (files : List FileMeta)
    (contents : String → List Char) (config : UserConfig) :
    (review_code files contents config).statistics.issue_counts.security =
      (review_code files contents config).security_issues.length ∧
    (review_code files contents config).statistics.issue_counts.performance =
      (review_code files contents config).performance_issues.length ∧
    (review_code files contents config).statistics.issue_counts.code_quality =
      (review_code files contents config).code_quality_issues.length ∧
    (review_code files contents config).statistics.issue_counts.test_coverage =
      (review_code files contents config).test_coverage_issues.length ∧
    (review_code files contents config).statistics.severity_counts.critical +
      (review_code files contents config).statistics.severity_counts.high +
      (review_code files contents config).statistics.severity_counts.medium +
      (review_code files contents config).statistics.severity_counts.low =
    (review_code files contents config).statistics.issue_counts.security +
      (review_code files contents config).statistics.issue_counts.performance +
      (review_code files contents config).statistics.issue_counts.code_quality +
      (review_code files contents config).statistics.issue_counts.test_coverage := by
  obtain ⟨c1, c2, c3, c4⟩ :=
    foldl_counts contents (mergeConfig config) files (initResults files) ⟨rfl, rfl, rfl, rfl⟩
  obtain ⟨_, _, _, d⟩ := foldl_stats contents (mergeConfig config) files (initResults files)
  refine ⟨c1, c2, c3, c4, ?_⟩
  have key : ∀ b : ReviewResult,
      b.statistics.severity_counts = { critical := 0, high := 0, medium := 0, low := 0 } →
      b.statistics.issue_counts.security = b.security_issues.length →
      b.statistics.issue_counts.performance = b.performance_issues.length →
      b.statistics.issue_counts.code_quality = b.code_quality_issues.length →
      b.statistics.issue_counts.test_coverage = b.test_coverage_issues.length →
      sevSum ((allIssues b).foldl (fun sc i => bumpSeverity sc i.severity)
          b.statistics.severity_counts) =
        b.statistics.issue_counts.security + b.statistics.issue_counts.performance +
          b.statistics.issue_counts.code_quality + b.statistics.issue_counts.test_coverage := by
    intro b hb k1 k2 k3 k4
    rw [sevSum_foldl, hb]
    simp only [allIssues, List.length_append, sevSum]
    omega
  exact key (files.foldl (processFile contents (mergeConfig config)) (initResults files))
    d c1 c2 c3 c4

lemma mem_patternIssues {i : Issue} {fn : String} {content : List Char} {r : PatRule}
    (h : i ∈ patternIssues fn content r) :
    i.file = fn ∧ i.severity = r.info.severity ∧ i.issue = r.info.issue ∧ 1 ≤ i.line := by
  rcases List.mem_map.mp h with ⟨m, _, rfl⟩
  exact ⟨rfl, rfl, rfl, Nat.le_add_left 1 _⟩

lemma mem_analyze_security {i : Issue} {fn : String} {content : List Char}
    {lang ft : String} {cfg : Config} (h : i ∈ _analyze_security fn content lang ft cfg) :
    ∃ r ∈ security_patterns lang cfg, i ∈ patternIssues fn content r := by
  simp only [_analyze_security] at h
  exact List.mem_flatMap.mp h

lemma file_of_security {i : Issue} {fn : String} {content : List Char}
    {lang ft : String} {cfg : Config} (h : i ∈ _analyze_security fn content lang ft cfg) :
    i.file = fn ∧ 1 ≤ i.line := by
  obtain ⟨r, _, hm⟩ := mem_analyze_security h
  exact ⟨(mem_patternIssues hm).1, (mem_patternIssues hm).2.2.2⟩

lemma file_of_performance {i : Issue} {fn : String} {content : List Char}
    {lang ft : String} {cfg : Config} (h : i ∈ _analyze_performance fn content lang ft cfg) :
    i.file = fn ∧ 1 ≤ i.line := by
  simp only [_analyze_performance] at h
  obtain ⟨r, _, hm⟩ := List.mem_flatMap.mp h
  exact ⟨(mem_patternIssues hm).1, (mem_patternIssues hm).2.2.2⟩

lemma file_of_quality {i : Issue} {fn : String} {content : List Char}
    {lang ft : String} {cfg : Config} (h : i ∈ _analyze_code_quality fn content lang ft cfg) :
    i.file = fn ∧ 1 ≤ i.line := by
  simp only [_analyze_code_quality] at h
  obtain ⟨r, _, hm⟩ := List.mem_flatMap.mp h
  exact ⟨(mem_patternIssues hm).1, (mem_patternIssues hm).2.2.2⟩

lemma file_of_tc {i : Issue} {fn : String} {content : List Char}
    {lang ft : String} {cfg : Config} (h : i ∈ _analyze_test_coverage fn content lang ft cfg) :
    i.file = fn ∧ 1 ≤ i.line := by
  simp only [_analyze_test_coverage] at h
  split at h
  · cases h
  · obtain ⟨r, _, hm⟩ := List.mem_flatMap.mp h
    rcases List.mem_map.mp hm with ⟨m, _, rfl⟩
    exact ⟨rfl, Nat.le_add_left 1 _⟩

lemma processFile_no_issue_for (contents : String → List Char) (cfg : Config)
    (r : ReviewResult) (f : FileMeta) (name : String)
    (h : _should_skip_file name cfg = true)
    (hr : ∀ i ∈ allIssues r, i.file ≠ name) :
    ∀ i ∈ allIssues (processFile contents cfg r f), i.file ≠ name := by
  simp only [processFile]
  split
  · exact hr
  · next hskip =>
    have hne : f.filename ≠ name := by
      intro e; rw [e] at hskip; exact hskip h
    repeat' split
    all_goals try exact hr
    all_goals
      intro i hi
      simp only [allIssues, List.mem_append] at hi
      rcases hi with ((((h1 | h1) | (h1 | h1)) | (h1 | h1)) | (h1 | h1))
      · exact hr i (by simp only [allIssues, List.mem_append]; tauto)
      · rw [(file_of_security h1).1]; exact hne
      · exact hr i (by simp only [allIssues, List.mem_append]; tauto)
      · rw [(file_of_performance h1).1]; exact hne
      · exact hr i (by simp only [allIssues, List.mem_append]; tauto)
      · rw [(file_of_quality h1).1]; exact hne
      · exact hr i (by simp only [allIssues, List.mem_append]; tauto)
      · rw [(file_of_tc h1).1]; exact hne

lemma foldl_no_issue_for (contents : String → List Char) (cfg : Config) (name : String)
    (h : _should_skip_file name cfg = true) :
    ∀ (files : List FileMeta) (r : ReviewResult),
    (∀ i ∈ allIssues r, i.file ≠ name) →
    ∀ i ∈ allIssues (files.foldl (processFile contents cfg) r), i.file ≠ name := by
  intro files
  induction files with
  | nil => intro r hr; exact hr
  | cons f fs ih =>
    intro r hr
    simp only [List.foldl_cons]
    exact ih (processFile contents cfg r f)
      (processFile_no_issue_for contents cfg r f name h hr)

/-- C5: custom skip patterns are appended to the built-in list, so a file
matching a built-in pattern is skipped under every configuration, and a
skipped filename contributes no issue to any category of the result. -/
theorem skip_pattern_files_contribute_no_issues (files : List FileMeta)
    (contents : String → List Char) (config : UserConfig) (name : String)
    (h : _should_skip_file name (mergeConfig config) = true) :
    (∀ c : Config, builtin_skip_patterns.any (fun p => p name) = true →
      _should_skip_file name c = true) ∧
    (allIssues (review_code files contents config)).all (fun i => i.file != name) = true := by
  constructor
  · intro c hb
    simp [_should_skip_file, List.any_append, hb]
  · have hinit : ∀ i ∈ allIssues (initResults files), i.file ≠ name := by
      intro i hi
      simp [allIssues, initResults] at hi
    have hb := foldl_no_issue_for contents (mergeConfig config) name h files
      (initResults files) hinit
    simp only [List.all_eq_true, bne_iff_ne, ne_eq, decide_eq_true_eq]
    exact hb

/-- A changed image file used by the C5 witness. -/
def c5File : FileMeta :=
  { filename := "logo.png", status := "modified", additions := 3, deletions := 1 }

/-- Witness for C5: logo.png matches the built-in image pattern, and a
review containing it yields no issue attributed to it even though its
content would match the hardcoded-secret rule. -/
theorem skip_pattern_files_contribute_no_issues_witness :
    _should_skip_file "logo.png" (mergeConfig {}) = true ∧
    (allIssues (review_code [c5File]
      (fun _ => ("password = \x22abc\x22").toList) {})).all
        (fun i => i.file != "logo.png") = true :=
  ⟨by decide,
   (skip_pattern_files_contribute_no_issues [c5File]
     (fun _ => ("password = \x22abc\x22").toList) {} "logo.png" (by decide)).2⟩

/-- Configuration whose only override is the strictness level. -/
def strictCfg (s : Nat) : Config := mergeConfig { strictness_level := some s }

/-- C2: for a fixed language the security rule set grows monotonically from
strictness 2 to 3 to 4, levels 1 and 2 coincide (always-on plus language
tier only), level 5 adds nothing over level 4, issue reporting is monotone
accordingly, and the other three categories ignore strictness entirely. -/
theorem rule_set_strictness_monotone (language : String) :
    security_patterns language (strictCfg 2) ⊆ security_patterns language (strictCfg 3) ∧
    security_patterns language (strictCfg 3) ⊆ security_patterns language (strictCfg 4) ∧
    security_patterns language (strictCfg 1) = security_patterns language (strictCfg 2) ∧
    security_patterns language (strictCfg 5) = security_patterns language (strictCfg 4) ∧
    security_patterns language (strictCfg 2) =
      security_patterns_base ++
        (if language == "javascript" || language == "typescript" then js_security_patterns
         else if language == "python" then py_security_patterns else []) ∧
    (∀ (fn : String) (content : List Char) (ft : String) (i : Issue),
      i ∈ _analyze_security fn content language ft (strictCfg 2) →
      i ∈ _analyze_security fn content language ft (strictCfg 3)) ∧
    (∀ (fn : String) (content : List Char) (ft : String) (i : Issue),
      i ∈ _analyze_security fn content language ft (strictCfg 3) →
      i ∈ _analyze_security fn content language ft (strictCfg 4)) ∧
    (∀ (fn : String) (content : List Char) (ft : String) (c1 c2 : Config),
      _analyze_performance fn content language ft c1 =
        _analyze_performance fn content language ft c2) ∧
    (∀ (fn : String) (content : List Char) (ft : String) (c1 c2 : Config),
      _analyze_code_quality fn content language ft c1 =
        _analyze_code_quality fn content language ft c2) ∧
    (∀ (fn : String) (content : List Char) (ft : String) (c1 c2 : Config),
      _analyze_test_coverage fn content language ft c1 =
        _analyze_test_coverage fn content language ft c2) := by
  have h23 : security_patterns language (strictCfg 2) ⊆ security_patterns language (strictCfg 3) := by
    intro a ha
    simp [security_patterns, strictCfg, mergeConfig, _get_default_config] at ha ⊢
    tauto
  have h34 : security_patterns language (strictCfg 3) ⊆ security_patterns language (strictCfg 4) := by
    intro a ha
    simp [security_patterns, strictCfg, mergeConfig, _get_default_config] at ha ⊢
    tauto
  refine ⟨h23, h34, rfl, rfl, ?_, ?_, ?_, ?_, ?_, ?_⟩
  · simp [security_patterns, strictCfg, mergeConfig, _get_default_config]
  · intro fn content ft i hi
    obtain ⟨r, hr, hm⟩ := mem_analyze_security hi
    simp only [_analyze_security]
    exact List.mem_flatMap.mpr ⟨r, h23 hr, hm⟩
  · intro fn content ft i hi
    obtain ⟨r, hr, hm⟩ := mem_analyze_security hi
    simp only [_analyze_security]
    exact List.mem_flatMap.mpr ⟨r, h34 hr, hm⟩
  · intro fn content ft c1 c2; cases c1; cases c2; rfl
  · intro fn content ft c1 c2; cases c1; cases c2; rfl
  · intro fn content ft c1 c2; cases c1; cases c2; rfl

/-- Content used by the C2 witness: a hardcoded key literal. -/
def c2content : List Char := ("key=\x27a\x27").toList

/-- Witness for C2: the hardcoded-secret rule present at strictness 2 is
still present at strictness 3, and a concrete issue it reports at
strictness 2 is also reported at strictness 3. -/
theorem rule_set_strictness_monotone_witness :
    hardcodedSecretRule ∈ security_patterns "python" (strictCfg 3) ∧
    mkIssue "a.py" c2content hardcodedSecretRule 0 ∈
      _analyze_security "a.py" c2content "python" "source" (strictCfg 3) :=
  ⟨(rule_set_strictness_monotone "python").1
    (by simp [security_patterns, strictCfg, mergeConfig, _get_default_config,
      security_patterns_base]),
   (rule_set_strictness_monotone "python").2.2.2.2.2.1 "a.py" c2content "source"
     (mkIssue "a.py" c2content hardcodedSecretRule 0) (by decide)⟩

/-- C6: an issue generated from a finditer match starting at offset p
carries line = (newline count before p) + 1, the generated issue is in the
analyzer output, and every reported line number is at least 1. -/
theorem line_number_of_match (fn : String) (content : List Char) (language ft : String)
    (cfg : Config) (r : PatRule) (m : Nat × Nat × Caps)
    (hr : r ∈ security_patterns language cfg) (hm : m ∈ findIter r.pattern content) :
    mkIssue fn content r m.1 ∈ _analyze_security fn content language ft cfg ∧
    (mkIssue fn content r m.1).line = (content.take m.1).count '\n' + 1 ∧
    ∀ i ∈ _analyze_security fn content language ft cfg, 1 ≤ i.line := by
  refine ⟨?_, rfl, ?_⟩
  · simp only [_analyze_security]
    exact List.mem_flatMap.mpr ⟨r, hr, List.mem_map_of_mem _ hm⟩
  · intro i hi
    obtain ⟨r2, _, hm2⟩ := mem_analyze_security hi
    exact (mem_patternIssues hm2).2.2.2

/-- Content used by the C6 witness: a hardcoded password literal. -/
def c6content : List Char := ("password = \x22x\x22").toList

/-- Witness for C6 at a concrete match of the hardcoded-secret rule. -/
theorem line_number_of_match_witness :
    mkIssue "a.py" c6content hardcodedSecretRule 0 ∈
      _analyze_security "a.py" c6content "python" "source" (mergeConfig {}) ∧
    (mkIssue "a.py" c6content hardcodedSecretRule 0).line =
      (c6content.take 0).count '\n' + 1 := by
  have h := line_number_of_match "a.py" c6content "python" "source" (mergeConfig {})
    hardcodedSecretRule (0, 14, [])
    (by simp [security_patterns, mergeConfig, _get_default_config, security_patterns_base])
    (by decide)
  exact ⟨h.1, h.2.1⟩

/-- Content of the C7 scenario. -/
def c7content : List Char := ("password = \x22abc123\x22").toList

/-- The single issue the C7 scenario produces. -/
def c7issue : Issue :=
  { file := "app.py"
    line := 1
    severity := .critical
    issue := "Hardcoded secret or credential in source code"
    recommendation := "Move sensitive values to environment variables or a secure configuration store"
    example_ := some "const apiKey = process.env.API_KEY;"
    reference := some "https://owasp.org/www-community/vulnerabilities/Use_of_hard-coded_password" }

/-- C7: under the default configuration (strictness 3), the single-line
python content password = "abc123" yields exactly one security issue, the
critical hardcoded-secret issue at line 1, and nothing else. -/
theorem python_password_default_scenario :
    _detect_language "app.py" = ("python", "source") ∧
    (mergeConfig {}).strictness_level = 3 ∧
    _analyze_security "app.py" c7content "python" "source" (mergeConfig {}) = [c7issue] ∧
    c7issue.severity = Severity.critical ∧ c7issue.line = 1 :=
  ⟨by decide, rfl, by decide, rfl, rfl⟩

/-- Content of the C8 scenario: two nested for loops whose iterable also
contains path-traversal text. -/
def c8content : List Char := ("for a in ../b:\n for c in d:\n e").toList

/-- The nested-loop performance issue the C8 scenario produces. -/
def c8issue : Issue :=
  { file := "app.py"
    line := 1
    severity := .medium
    issue := "Nested loops may lead to O(n²) time complexity"
    recommendation := "Consider restructuring the algorithm to avoid nested iterations"
    example_ := some "Use a more efficient data structure or algorithm to reduce time complexity"
    reference := none }

/-- C8: the nested-loop content yields the medium performance issue under
every configuration (strictness included); at strictness 2 it yields no
security issue although its text matches the tier-1 path-traversal rule,
which fires at strictness 3; and no strictness-2 security issue can ever
carry the issue text of a tier-1 or tier-2 rule. -/
theorem nested_loops_strictness_scenario :
    (∀ c : Config, _analyze_performance "app.py" c8content "python" "source" c = [c8issue]) ∧
    _analyze_security "app.py" c8content "python" "source" (strictCfg 2) = [] ∧
    (_analyze_security "app.py" c8content "python" "source" (strictCfg 3)).map
      (fun i => i.issue) = ["Potential path traversal vulnerability"] ∧
    (∀ (content : List Char) (fn ft : String) (i : Issue),
      i ∈ _analyze_security fn content "python" ft (strictCfg 2) →
      i.issue ≠ "Potential path traversal vulnerability" ∧
      i.issue ≠ "Use of non-cryptographically secure random number generator" ∧
      i.issue ≠ "Regular expression pattern susceptible to ReDoS attacks" ∧
      i.issue ≠ "Overly permissive CORS policy") := by
  refine ⟨?_, by decide, by decide, ?_⟩
  · have hbase : _analyze_performance "app.py" c8content "python" "source" (mergeConfig {}) =
        [c8issue] := by decide
    intro c; cases c; exact hbase
  · intro content fn ft i hi
    obtain ⟨r, hr, hm⟩ := mem_analyze_security hi
    have hissue := (mem_patternIssues hm).2.2.1
    have hmem : r = sqlInjectionRule ∨ r = xssRule ∨ r = hardcodedSecretRule ∨
        r = pyEvalRule ∨ r = pickleRule := by
      simpa [security_patterns, strictCfg, mergeConfig, _get_default_config,
        security_patterns_base, py_security_patterns] using hr
    rcases hmem with h | h | h | h | h <;> subst h <;> rw [hissue] <;>
      exact ⟨by decide, by decide, by decide, by decide⟩

/-- Content of the C8 witness: a hardcoded token literal. -/
def c8wcontent : List Char := ("token=\x27t\x27").toList

/-- Witness for C8: a concrete strictness-2 security issue whose text is
not that of a tier-1 or tier-2 rule. -/
theorem nested_loops_strictness_scenario_witness :
    (mkIssue "a.py" c8wcontent hardcodedSecretRule 0).issue ≠
      "Potential path traversal vulnerability" ∧
    (mkIssue "a.py" c8wcontent hardcodedSecretRule 0).issue ≠
      "Use of non-cryptographically secure random number generator" := by
  have h := (nested_loops_strictness_scenario).2.2.2 c8wcontent "a.py" "source"
    (mkIssue "a.py" c8wcontent hardcodedSecretRule 0) (by decide)
  exact ⟨h.1, h.2.1⟩
